import Mathlib

/-!
Verification of the Node.js NAPI binding layer of rust-oci-client
(`bindings/nodejs/src/lib.rs`), as a shallow embedding in Lean 4.

Pure data types and conversions are embedded as Lean structures and
functions; NAPI errors (`Error::from_reason`) are modelled as `String`;
fallible conversions return `Except String α`.  The calls the binding
delegates to the native `oci_client` engine (network operations) are
modelled by passing the inner operation as an explicit function argument;
each public client operation is embedded returning its result paired with
the number of inner-client invocations it performed, so "fails before any
network call" is the statement that the invocation count is zero.
-/

set_option maxHeartbeats 1000000

namespace OciBind

/-! ## Authentication types (`RegistryAuthType`, `RegistryAuth`) -/

/-- Mirror of the binding enum `RegistryAuthType`. -/
inductive RegistryAuthType
  | Anonymous
  | Basic
  | Bearer
deriving DecidableEq, Repr

/-- Mirror of the binding struct `RegistryAuth`. -/
structure RegistryAuth where
  auth_type : RegistryAuthType
  username : Option String
  password : Option String
  token : Option String
deriving DecidableEq, Repr

/-- Mirror of the native `oci_client::secrets::RegistryAuth` enum. -/
inductive NativeRegistryAuth
  | Anonymous
  | Basic (username password : String)
  | Bearer (token : String)
deriving DecidableEq, Repr

/-- Embedding of `RegistryAuth::to_native` (lib.rs lines 55-79). -/
def RegistryAuth.to_native (a : RegistryAuth) : Except String NativeRegistryAuth :=
  match a.auth_type with
  | .Anonymous => .ok .Anonymous
  | .Basic =>
    match a.username with
    | none => .error "username required for Basic auth"
    | some username =>
      match a.password with
      | none => .error "password required for Basic auth"
      | some password => .ok (.Basic username password)
  | .Bearer =>
    match a.token with
    | none => .error "token required for Bearer auth"
    | some token => .ok (.Bearer token)

/-- Embedding of the helper `anonymous_auth` (lib.rs lines 1092-1100). -/
def anonymous_auth : RegistryAuth :=
  { auth_type := .Anonymous, username := none, password := none, token := none }

/-- Embedding of the helper `basic_auth` (lib.rs lines 1103-1111). -/
def basic_auth (username password : String) : RegistryAuth :=
  { auth_type := .Basic, username := some username, password := some password, token := none }

/-- Embedding of the helper `bearer_auth` (lib.rs lines 1114-1122). -/
def bearer_auth (token : String) : RegistryAuth :=
  { auth_type := .Bearer, username := none, password := none, token := some token }

/-- Whether an `Except` result is a success. -/
def exceptIsOk {ε α : Type} : Except ε α → Bool
  | .ok _ => true
  | .error _ => false

/-- The fields that the active `auth_type` variant requires to be present. -/
def RegistryAuth.requiredFieldsPresent (a : RegistryAuth) : Bool :=
  match a.auth_type with
  | .Anonymous => true
  | .Basic => a.username.isSome && a.password.isSome
  | .Bearer => a.token.isSome

/-! ## Client configuration types (`ClientProtocol`, `Certificate`, `ClientConfig`) -/

/-- Mirror of the binding enum `ClientProtocol`. -/
inductive ClientProtocol
  | Http
  | Https
  | HttpsExcept
deriving DecidableEq, Repr

/-- Mirror of the native `oci_client::client::ClientProtocol` enum. -/
inductive NativeClientProtocol
  | Http
  | Https
  | HttpsExcept (registries : List String)
deriving DecidableEq, Repr

/-- Mirror of the binding / native `CertificateEncoding` enum. -/
inductive CertificateEncoding
  | Der
  | Pem
deriving DecidableEq, Repr

/-- Mirror of the binding struct `Certificate`; the `Buffer` payload is a byte list. -/
structure Certificate where
  encoding : CertificateEncoding
  data : List Nat
deriving DecidableEq, Repr

/-- Mirror of the native `oci_client::client::Certificate` struct. -/
structure NativeCertificate where
  encoding : CertificateEncoding
  data : List Nat
deriving DecidableEq, Repr

/-- Embedding of `Certificate::to_native` (lib.rs lines 117-127). -/
def Certificate.to_native (c : Certificate) : NativeCertificate :=
  { encoding :=
      match c.encoding with
      | .Der => .Der
      | .Pem => .Pem,
    data := c.data }

/-- Mirror of the binding struct `ClientConfig`; every field optional. -/
structure ClientConfig where
  protocol : Option ClientProtocol
  https_except_registries : Option (List String)
  accept_invalid_certificates : Option Bool
  use_monolithic_push : Option Bool
  extra_root_certificates : Option (List Certificate)
  max_concurrent_upload : Option Nat
  max_concurrent_download : Option Nat
  default_token_expiration_secs : Option Nat
  read_timeout_ms : Option Nat
  connect_timeout_ms : Option Nat
  https_proxy : Option String
  http_proxy : Option String
  no_proxy : Option String
deriving DecidableEq, Repr

/-- Mirror of the native `oci_client::client::ClientConfig` struct; `Duration`
timeouts are modelled as milliseconds. -/
structure NativeClientConfig where
  protocol : NativeClientProtocol
  accept_invalid_certificates : Bool
  extra_root_certificates : List NativeCertificate
  use_monolithic_push : Bool
  max_concurrent_upload : Nat
  max_concurrent_download : Nat
  default_token_expiration_secs : Nat
  read_timeout : Option Nat
  connect_timeout : Option Nat
  https_proxy : Option String
  http_proxy : Option String
  no_proxy : Option String
deriving DecidableEq, Repr

/-- Modelled from the spec: `NativeClientConfig::default()` lives in the native
`oci_client` crate, outside this repository's `src/`.  The spec documents the
defaults: protocol policy Https, concurrency limits 16/16, token default
expiry 60s, all remaining knobs off/empty (no timeouts, no proxies, no extra
trust roots, certificates validated, chunked push). -/
def defaultNativeClientConfig : NativeClientConfig :=
  { protocol := .Https
    accept_invalid_certificates := false
    extra_root_certificates := []
    use_monolithic_push := false
    max_concurrent_upload := 16
    max_concurrent_download := 16
    default_token_expiration_secs := 60
    read_timeout := none
    connect_timeout := none
    https_proxy := none
    http_proxy := none
    no_proxy := none }

/-- Embedding of `ClientConfig::to_native` (lib.rs lines 161-225): start from
the native default and override exactly the fields that are `Some`. -/
def ClientConfig.to_native (c : ClientConfig) : NativeClientConfig :=
  let config := defaultNativeClientConfig
  let config :=
    { config with
      protocol :=
        match c.protocol with
        | none => config.protocol
        | some .Http => .Http
        | some .Https => .Https
        | some .HttpsExcept => .HttpsExcept (c.https_except_registries.getD []) }
  let config :=
    { config with
      accept_invalid_certificates :=
        match c.accept_invalid_certificates with
        | none => config.accept_invalid_certificates
        | some accept => accept }
  let config :=
    { config with
      use_monolithic_push :=
        match c.use_monolithic_push with
        | none => config.use_monolithic_push
        | some monolithic => monolithic }
  let config :=
    { config with
      extra_root_certificates :=
        match c.extra_root_certificates with
        | none => config.extra_root_certificates
        | some certs => certs.map Certificate.to_native }
  let config :=
    { config with
      max_concurrent_upload :=
        match c.max_concurrent_upload with
        | none => config.max_concurrent_upload
        | some m => m }
  let config :=
    { config with
      max_concurrent_download :=
        match c.max_concurrent_download with
        | none => config.max_concurrent_download
        | some m => m }
  let config :=
    { config with
      default_token_expiration_secs :=
        match c.default_token_expiration_secs with
        | none => config.default_token_expiration_secs
        | some secs => secs }
  let config :=
    { config with
      read_timeout :=
        match c.read_timeout_ms with
        | none => config.read_timeout
        | some ms => some ms }
  let config :=
    { config with
      connect_timeout :=
        match c.connect_timeout_ms with
        | none => config.connect_timeout
        | some ms => some ms }
  let config :=
    { config with
      https_proxy :=
        match c.https_proxy with
        | none => config.https_proxy
        | some proxy => some proxy }
  let config :=
    { config with
      http_proxy :=
        match c.http_proxy with
        | none => config.http_proxy
        | some proxy => some proxy }
  let config :=
    { config with
      no_proxy :=
        match c.no_proxy with
        | none => config.no_proxy
        | some np => some np }
  config

/-- Modelled from the spec: the Transport Adapter's protocol policy (§4.3) —
"force HTTP if configured, force HTTPS otherwise, or HTTPS except for
registries on an explicit exception list".  The policy implementation lives
in the native crate, outside `src/`. -/
def NativeClientProtocol.schemeFor : NativeClientProtocol → String → String
  | .Http, _ => "http"
  | .Https, _ => "https"
  | .HttpsExcept registries, registry => if registry ∈ registries then "http" else "https"

/-! ## Manifest data types and conversions

The annotation maps (`BTreeMap<String, String>` in Rust) are opaque to every
conversion in the binding, which only moves them; they are modelled as
association lists. -/

/-- String-keyed annotation map, moved opaquely by all conversions. -/
abbrev AnnotationMap := List (String × String)

/-- Mirror of the native `oci_client::manifest::OciDescriptor` struct. -/
structure OciDescriptor where
  media_type : String
  digest : String
  size : Int
  urls : Option (List String)
  annotations : Option AnnotationMap
deriving DecidableEq, Repr

/-- Mirror of the binding struct `Descriptor`. -/
structure Descriptor where
  media_type : String
  digest : String
  size : Int
  urls : Option (List String)
  annotations : Option AnnotationMap
deriving DecidableEq, Repr

/-- Embedding of `impl From<OciDescriptor> for Descriptor` (lib.rs lines 354-364). -/
def Descriptor.from_native (d : OciDescriptor) : Descriptor :=
  { media_type := d.media_type, digest := d.digest, size := d.size,
    urls := d.urls, annotations := d.annotations }

/-- Embedding of `impl From<Descriptor> for OciDescriptor` (lib.rs lines 366-376). -/
def OciDescriptor.from_binding (d : Descriptor) : OciDescriptor :=
  { media_type := d.media_type, digest := d.digest, size := d.size,
    urls := d.urls, annotations := d.annotations }

/-- Mirror of the native `oci_client::manifest::Platform` struct. -/
structure Platform where
  architecture : String
  os : String
  os_version : Option String
  os_features : Option (List String)
  variant : Option String
  features : Option (List String)
deriving DecidableEq, Repr

/-- Mirror of the binding struct `PlatformSpec`. -/
structure PlatformSpec where
  architecture : String
  os : String
  os_version : Option String
  os_features : Option (List String)
  variant : Option String
  features : Option (List String)
deriving DecidableEq, Repr

/-- Embedding of `impl From<Platform> for PlatformSpec` (lib.rs lines 395-406). -/
def PlatformSpec.from_native (p : Platform) : PlatformSpec :=
  { architecture := p.architecture, os := p.os, os_version := p.os_version,
    os_features := p.os_features, variant := p.variant, features := p.features }

/-- Embedding of `impl From<PlatformSpec> for Platform` (lib.rs lines 408-419). -/
def Platform.from_binding (p : PlatformSpec) : Platform :=
  { architecture := p.architecture, os := p.os, os_version := p.os_version,
    os_features := p.os_features, variant := p.variant, features := p.features }

/-- Mirror of the native `oci_client::manifest::ImageIndexEntry` struct. -/
structure ImageIndexEntry where
  media_type : String
  digest : String
  size : Int
  platform : Option Platform
  annotations : Option AnnotationMap
deriving DecidableEq, Repr

/-- Mirror of the binding struct `ManifestEntry`. -/
structure ManifestEntry where
  media_type : String
  digest : String
  size : Int
  platform : Option PlatformSpec
  annotations : Option AnnotationMap
deriving DecidableEq, Repr

/-- Embedding of `impl From<ImageIndexEntry> for ManifestEntry` (lib.rs lines 436-446). -/
def ManifestEntry.from_native (e : ImageIndexEntry) : ManifestEntry :=
  { media_type := e.media_type, digest := e.digest, size := e.size,
    platform := e.platform.map PlatformSpec.from_native, annotations := e.annotations }

/-- Embedding of `impl From<ManifestEntry> for ImageIndexEntry` (lib.rs lines 448-458). -/
def ImageIndexEntry.from_binding (e : ManifestEntry) : ImageIndexEntry :=
  { media_type := e.media_type, digest := e.digest, size := e.size,
    platform := e.platform.map Platform.from_binding, annotations := e.annotations }

/-- Mirror of the native `oci_client::manifest::OciImageIndex` struct. -/
structure OciImageIndex where
  schema_version : Nat
  media_type : Option String
  manifests : List ImageIndexEntry
  artifact_type : Option String
  annotations : Option AnnotationMap
deriving DecidableEq, Repr

/-- Mirror of the binding struct `ImageIndex`. -/
structure ImageIndex where
  schema_version : Nat
  media_type : Option String
  manifests : List ManifestEntry
  artifact_type : Option String
  annotations : Option AnnotationMap
deriving DecidableEq, Repr

/-- Embedding of `impl From<OciImageIndex> for ImageIndex` (lib.rs lines 475-485). -/
def ImageIndex.from_native (idx : OciImageIndex) : ImageIndex :=
  { schema_version := idx.schema_version, media_type := idx.media_type,
    manifests := idx.manifests.map ManifestEntry.from_native,
    artifact_type := idx.artifact_type, annotations := idx.annotations }

/-- Embedding of `impl From<ImageIndex> for OciImageIndex` (lib.rs lines 487-497). -/
def OciImageIndex.from_binding (idx : ImageIndex) : OciImageIndex :=
  { schema_version := idx.schema_version, media_type := idx.media_type,
    manifests := idx.manifests.map ImageIndexEntry.from_binding,
    artifact_type := idx.artifact_type, annotations := idx.annotations }

/-- Mirror of the native `oci_client::manifest::OciImageManifest` struct. -/
structure OciImageManifest where
  schema_version : Nat
  media_type : Option String
  config : OciDescriptor
  layers : List OciDescriptor
  subject : Option OciDescriptor
  artifact_type : Option String
  annotations : Option AnnotationMap
deriving DecidableEq, Repr

/-- Mirror of the binding struct `ImageManifest`. -/
structure ImageManifest where
  schema_version : Nat
  media_type : Option String
  config : Descriptor
  layers : List Descriptor
  subject : Option Descriptor
  artifact_type : Option String
  annotations : Option AnnotationMap
deriving DecidableEq, Repr

/-- Embedding of `impl From<OciImageManifest> for ImageManifest` (lib.rs lines 518-530). -/
def ImageManifest.from_native (m : OciImageManifest) : ImageManifest :=
  { schema_version := m.schema_version, media_type := m.media_type,
    config := Descriptor.from_native m.config,
    layers := m.layers.map Descriptor.from_native,
    subject := m.subject.map Descriptor.from_native,
    artifact_type := m.artifact_type, annotations := m.annotations }

/-- Embedding of `impl From<ImageManifest> for OciImageManifest` (lib.rs lines 532-544). -/
def OciImageManifest.from_binding (m : ImageManifest) : OciImageManifest :=
  { schema_version := m.schema_version, media_type := m.media_type,
    config := OciDescriptor.from_binding m.config,
    layers := m.layers.map OciDescriptor.from_binding,
    subject := m.subject.map OciDescriptor.from_binding,
    artifact_type := m.artifact_type, annotations := m.annotations }

/-- Mirror of the native `oci_client::manifest::OciManifest` enum. -/
inductive OciManifest
  | Image (manifest : OciImageManifest)
  | ImageIndex (index : OciImageIndex)
deriving DecidableEq, Repr

/-- Mirror of the binding enum `ManifestType`. -/
inductive ManifestType
  | Image
  | ImageIndex
deriving DecidableEq, Repr

/-- Mirror of the binding struct `Manifest` (tagged union wrapper). -/
structure Manifest where
  manifest_type : ManifestType
  image : Option ImageManifest
  image_index : Option ImageIndex
deriving DecidableEq, Repr

/-- Embedding of `impl From<OciManifest> for Manifest` (lib.rs lines 571-586). -/
def Manifest.from_native : OciManifest → Manifest
  | .Image img =>
    { manifest_type := .Image, image := some (ImageManifest.from_native img),
      image_index := none }
  | .ImageIndex idx =>
    { manifest_type := .ImageIndex, image := none,
      image_index := some (ImageIndex.from_native idx) }

/-- Embedding of `impl TryFrom<Manifest> for OciManifest` (lib.rs lines 588-603). -/
def OciManifest.try_from_binding (m : Manifest) : Except String OciManifest :=
  match m.manifest_type with
  | .Image =>
    match m.image with
    | none => .error "image field required for Image manifest type"
    | some img => .ok (.Image (OciImageManifest.from_binding img))
  | .ImageIndex =>
    match m.image_index with
    | none => .error "image_index field required for ImageIndex manifest type"
    | some idx => .ok (.ImageIndex (OciImageIndex.from_binding idx))

/-! ## Image data / layer / config / push-response types -/

/-- Mirror of the native `oci_client::client::ImageLayer` struct. -/
structure NativeImageLayer where
  data : List Nat
  media_type : String
  annotations : Option AnnotationMap
deriving DecidableEq, Repr

/-- Mirror of the binding struct `ImageLayer`. -/
structure ImageLayer where
  data : List Nat
  media_type : String
  annotations : Option AnnotationMap
deriving DecidableEq, Repr

/-- Embedding of `ImageLayer::from_native` (lib.rs lines 244-250). -/
def ImageLayer.from_native (layer : NativeImageLayer) : ImageLayer :=
  { data := layer.data, media_type := layer.media_type, annotations := layer.annotations }

/-- Embedding of `ImageLayer::to_native` (lib.rs lines 252-258); the native
constructor `ImageLayer::new` stores its three arguments. -/
def ImageLayer.to_native (layer : ImageLayer) : NativeImageLayer :=
  { data := layer.data, media_type := layer.media_type, annotations := layer.annotations }

/-- Mirror of the native `oci_client::client::Config` struct. -/
structure NativeConfig where
  data : List Nat
  media_type : String
  annotations : Option AnnotationMap
deriving DecidableEq, Repr

/-- Mirror of the binding struct `Config`. -/
structure Config where
  data : List Nat
  media_type : String
  annotations : Option AnnotationMap
deriving DecidableEq, Repr

/-- Embedding of `Config::from_native` (lib.rs lines 274-280). -/
def Config.from_native (config : NativeConfig) : Config :=
  { data := config.data, media_type := config.media_type, annotations := config.annotations }

/-- Embedding of `Config::to_native` (lib.rs lines 282-288). -/
def Config.to_native (config : Config) : NativeConfig :=
  { data := config.data, media_type := config.media_type, annotations := config.annotations }

/-- Mirror of the native `oci_client::client::ImageData` struct. -/
structure NativeImageData where
  layers : List NativeImageLayer
  digest : Option String
  config : NativeConfig
  manifest : Option OciImageManifest
deriving DecidableEq, Repr

/-- Mirror of the binding struct `ImageData`. -/
structure ImageData where
  layers : List ImageLayer
  digest : Option String
  config : Config
  manifest : Option ImageManifest
deriving DecidableEq, Repr

/-- Embedding of `ImageData::from_native` (lib.rs lines 305-314). -/
def ImageData.from_native (data : NativeImageData) : ImageData :=
  { layers := data.layers.map ImageLayer.from_native, digest := data.digest,
    config := Config.from_native data.config,
    manifest := data.manifest.map ImageManifest.from_native }

/-- Mirror of the native / binding `PushResponse` struct (lib.rs lines 318-333). -/
structure PushResponse where
  config_url : String
  manifest_url : String
deriving DecidableEq, Repr

/-- Mirror of the native `TagResponse` returned by `Client::list_tags`. -/
structure NativeTagResponse where
  tags : List String
deriving DecidableEq, Repr

/-! ## Exported constants (annotation keys and media types) -/

/-- lib.rs line 969. -/
def ORG_OPENCONTAINERS_IMAGE_CREATED : String := "org.opencontainers.image.created"

/-- lib.rs line 973. -/
def ORG_OPENCONTAINERS_IMAGE_AUTHORS : String := "org.opencontainers.image.authors"

/-- lib.rs line 977. -/
def ORG_OPENCONTAINERS_IMAGE_URL : String := "org.opencontainers.image.url"

/-- lib.rs line 981. -/
def ORG_OPENCONTAINERS_IMAGE_DOCUMENTATION : String := "org.opencontainers.image.documentation"

/-- lib.rs line 985. -/
def ORG_OPENCONTAINERS_IMAGE_SOURCE : String := "org.opencontainers.image.source"

/-- lib.rs line 989. -/
def ORG_OPENCONTAINERS_IMAGE_VERSION : String := "org.opencontainers.image.version"

/-- lib.rs line 993. -/
def ORG_OPENCONTAINERS_IMAGE_REVISION : String := "org.opencontainers.image.revision"

/-- lib.rs line 997. -/
def ORG_OPENCONTAINERS_IMAGE_VENDOR : String := "org.opencontainers.image.vendor"

/-- lib.rs line 1001. -/
def ORG_OPENCONTAINERS_IMAGE_LICENSES : String := "org.opencontainers.image.licenses"

/-- lib.rs line 1005. -/
def ORG_OPENCONTAINERS_IMAGE_REF_NAME : String := "org.opencontainers.image.ref.name"

/-- lib.rs line 1009. -/
def ORG_OPENCONTAINERS_IMAGE_TITLE : String := "org.opencontainers.image.title"

/-- lib.rs line 1013. -/
def ORG_OPENCONTAINERS_IMAGE_DESCRIPTION : String := "org.opencontainers.image.description"

/-- lib.rs line 1017. -/
def ORG_OPENCONTAINERS_IMAGE_BASE_DIGEST : String := "org.opencontainers.image.base.digest"

/-- lib.rs line 1021. -/
def ORG_OPENCONTAINERS_IMAGE_BASE_NAME : String := "org.opencontainers.image.base.name"

/-- The complete set of `ORG_OPENCONTAINERS_IMAGE_*` constants exported by the
binding (lib.rs lines 967-1021), in source order. -/
def exportedAnnotationKeys : List String :=
  [ORG_OPENCONTAINERS_IMAGE_CREATED, ORG_OPENCONTAINERS_IMAGE_AUTHORS,
   ORG_OPENCONTAINERS_IMAGE_URL, ORG_OPENCONTAINERS_IMAGE_DOCUMENTATION,
   ORG_OPENCONTAINERS_IMAGE_SOURCE, ORG_OPENCONTAINERS_IMAGE_VERSION,
   ORG_OPENCONTAINERS_IMAGE_REVISION, ORG_OPENCONTAINERS_IMAGE_VENDOR,
   ORG_OPENCONTAINERS_IMAGE_LICENSES, ORG_OPENCONTAINERS_IMAGE_REF_NAME,
   ORG_OPENCONTAINERS_IMAGE_TITLE, ORG_OPENCONTAINERS_IMAGE_DESCRIPTION,
   ORG_OPENCONTAINERS_IMAGE_BASE_DIGEST, ORG_OPENCONTAINERS_IMAGE_BASE_NAME]

/-- lib.rs line 1029. -/
def WASM_LAYER_MEDIA_TYPE : String := "application/vnd.wasm.content.layer.v1+wasm"

/-- lib.rs line 1033. -/
def WASM_CONFIG_MEDIA_TYPE : String := "application/vnd.wasm.config.v1+json"

/-- lib.rs line 1037. -/
def IMAGE_MANIFEST_MEDIA_TYPE : String := "application/vnd.docker.distribution.manifest.v2+json"

/-- lib.rs lines 1041-1042. -/
def IMAGE_MANIFEST_LIST_MEDIA_TYPE : String :=
  "application/vnd.docker.distribution.manifest.list.v2+json"

/-- lib.rs line 1046. -/
def OCI_IMAGE_INDEX_MEDIA_TYPE : String := "application/vnd.oci.image.index.v1+json"

/-- lib.rs line 1050. -/
def OCI_IMAGE_MEDIA_TYPE : String := "application/vnd.oci.image.manifest.v1+json"

/-- lib.rs line 1054. -/
def IMAGE_CONFIG_MEDIA_TYPE : String := "application/vnd.oci.image.config.v1+json"

/-- lib.rs line 1058. -/
def IMAGE_DOCKER_CONFIG_MEDIA_TYPE : String := "application/vnd.docker.container.image.v1+json"

/-- lib.rs line 1062. -/
def IMAGE_LAYER_MEDIA_TYPE : String := "application/vnd.oci.image.layer.v1.tar"

/-- lib.rs line 1066. -/
def IMAGE_LAYER_GZIP_MEDIA_TYPE : String := "application/vnd.oci.image.layer.v1.tar+gzip"

/-- lib.rs line 1070. -/
def IMAGE_DOCKER_LAYER_TAR_MEDIA_TYPE : String := "application/vnd.docker.image.rootfs.diff.tar"

/-- lib.rs lines 1074-1075. -/
def IMAGE_DOCKER_LAYER_GZIP_MEDIA_TYPE : String :=
  "application/vnd.docker.image.rootfs.diff.tar.gzip"

/-- lib.rs lines 1079-1080. -/
def IMAGE_LAYER_NONDISTRIBUTABLE_MEDIA_TYPE : String :=
  "application/vnd.oci.image.layer.nondistributable.v1.tar"

/-- lib.rs lines 1084-1085. -/
def IMAGE_LAYER_NONDISTRIBUTABLE_GZIP_MEDIA_TYPE : String :=
  "application/vnd.oci.image.layer.nondistributable.v1.tar+gzip"

/-! ## Reference parser

Modelled from the spec: the Reference Parser component (§4.1, §6) lives in the
native `oci_client` crate, outside this repository's `src/`.  Grammar
`[registry/]repository[:tag][@digest]`; registry defaults to a well-known
public registry when omitted; tag defaults to `latest` when neither tag nor
digest is given; fails fast with a descriptive error on malformed digest
algorithm, disallowed characters, or empty repository segments. -/

/-- Parsed image reference (spec §3). -/
structure Reference where
  registry : String
  repository : String
  tag : Option String
  digest : Option String
deriving DecidableEq, Repr

/-- Split a character list on a separator; always returns a non-empty list. -/
def splitCharList (sep : Char) : List Char → List (List Char)
  | [] => [[]]
  | c :: rest =>
    let r := splitCharList sep rest
    if c = sep then [] :: r
    else
      match r with
      | [] => [[c]]
      | h :: t => (c :: h) :: t

/-- Split a string on a separator character. -/
def splitOnChar (s : String) (sep : Char) : List String :=
  (splitCharList sep s.data).map String.mk

/-- Join strings with `/` separators. -/
def joinSlash : List String → String
  | [] => ""
  | [x] => x
  | x :: xs => x ++ "/" ++ joinSlash xs

/-- Characters allowed in a repository path segment (lowercase-normalized). -/
def isRepoChar (c : Char) : Bool :=
  c.isLower || c.isDigit || c = '.' || c = '_' || c = '-'

/-- Characters allowed in a tag. -/
def isTagChar (c : Char) : Bool :=
  c.isAlpha || c.isDigit || c = '.' || c = '_' || c = '-'

/-- Characters allowed in a digest algorithm name. -/
def isAlgoChar (c : Char) : Bool :=
  c.isLower || c.isDigit

/-- Lowercase hexadecimal digit. -/
def isHexChar (c : Char) : Bool :=
  c.isDigit || ('a' ≤ c && c ≤ 'f')

/-- Modelled from the spec: digests are hash-algorithm-prefixed content
identifiers `algo:<hex>`; a malformed algorithm fails fast (§4.1, glossary). -/
def parseDigest (d : String) : Except String String :=
  match splitOnChar d ':' with
  | [algo, hex] =>
    if algo.data.isEmpty || !algo.data.all isAlgoChar then
      .error "malformed digest algorithm"
    else if hex.data.isEmpty || !hex.data.all isHexChar then
      .error "malformed digest hex"
    else .ok d
  | _ => .error "malformed digest: expected algorithm:hex"

/-- Repository is non-empty with non-empty, well-formed slash-separated segments. -/
def validRepository (repo : String) : Bool :=
  !repo.data.isEmpty &&
    (splitOnChar repo '/').all (fun seg => !seg.data.isEmpty && seg.data.all isRepoChar)

/-- Tag is non-empty and made of allowed characters. -/
def validTag (t : String) : Bool :=
  !t.data.isEmpty && t.data.all isTagChar

/-- The well-known public registry used when the reference omits one (§4.1). -/
def DEFAULT_REGISTRY : String := "docker.io"

/-- A leading path component denotes a registry host when it contains a dot or
a port separator or is the conventional local host name. -/
def isRegistryComponent (c : String) : Bool :=
  c.data.any (fun ch => ch = '.' || ch = ':') || c = "localhost"

/-- Modelled from the spec: parse `[registry/]repository[:tag]` with an already
separated optional digest. -/
def parseBase (base : String) (digest : Option String) : Except String Reference :=
  let comps := splitOnChar base '/'
  let split :=
    match comps with
    | first :: rest =>
      if !rest.isEmpty && isRegistryComponent first then (first, joinSlash rest)
      else (DEFAULT_REGISTRY, base)
    | [] => (DEFAULT_REGISTRY, base)
  match splitOnChar split.2 ':' with
  | [repo] =>
    if !validRepository repo then
      .error "invalid repository: empty segment or disallowed character"
    else
      .ok { registry := split.1, repository := repo,
            tag := if digest.isNone then some "latest" else none, digest := digest }
  | [repo, t] =>
    if !validRepository repo then
      .error "invalid repository: empty segment or disallowed character"
    else if !validTag t then
      .error "invalid tag: empty or disallowed character"
    else
      .ok { registry := split.1, repository := repo, tag := some t, digest := digest }
  | _ => .error "invalid reference: disallowed character in repository"

/-- Modelled from the spec: `Reference::from_str` — the Reference Parser
contract `parse(s: string) -> Reference | InvalidReferenceError` (§4.1). -/
def Reference.fromStr (s : String) : Except String Reference :=
  match splitOnChar s '@' with
  | [base] => parseBase base none
  | [base, d] =>
    match parseDigest d with
    | .error e => .error e
    | .ok dg => parseBase base (some dg)
  | _ => .error "invalid reference: more than one digest separator"

/-! ## Client operations

Each public `OciClient` method delegates to one native `Client` (network)
operation.  The native operation is passed in as the `inner` argument; the
embedding returns the method's result paired with the number of `inner`
invocations performed, so fail-fast behaviour is observable. -/

/-- Result struct returned by `pull_image_manifest` (lib.rs lines 619-625). -/
structure PullImageManifestResult where
  manifest : ImageManifest
  digest : String
deriving DecidableEq, Repr

/-- Result struct returned by `pull_manifest` (lib.rs lines 606-612). -/
structure PullManifestResult where
  manifest : Manifest
  digest : String
deriving DecidableEq, Repr

namespace OciClient

/-- Embedding of `OciClient::pull` (lib.rs lines 662-680). -/
def pull
    (inner : Reference → NativeRegistryAuth → List String → Except String NativeImageData)
    (image : String) (auth : RegistryAuth) (accepted_media_types : List String) :
    Except String ImageData × Nat :=
  match Reference.fromStr image with
  | .error e => (.error ("Invalid image reference: " ++ e), 0)
  | .ok reference =>
    match auth.to_native with
    | .error e => (.error e, 0)
    | .ok native_auth =>
      match inner reference native_auth accepted_media_types with
      | .error e => (.error ("Pull failed: " ++ e), 1)
      | .ok image_data => (.ok (ImageData.from_native image_data), 1)

/-- Embedding of `OciClient::push` (lib.rs lines 688-717). -/
def push
    (inner : Reference → List NativeImageLayer → NativeConfig → NativeRegistryAuth →
      Option OciImageManifest → Except String PushResponse)
    (image_ref : String) (layers : List ImageLayer) (config : Config)
    (auth : RegistryAuth) (manifest : Option ImageManifest) :
    Except String PushResponse × Nat :=
  match Reference.fromStr image_ref with
  | .error e => (.error ("Invalid image reference: " ++ e), 0)
  | .ok reference =>
    match auth.to_native with
    | .error e => (.error e, 0)
    | .ok native_auth =>
      let native_layers := layers.map ImageLayer.to_native
      let native_config := config.to_native
      let native_manifest := manifest.map OciImageManifest.from_binding
      match inner reference native_layers native_config native_auth native_manifest with
      | .error e => (.error ("Push failed: " ++ e), 1)
      | .ok response => (.ok response, 1)

/-- Embedding of `OciClient::pull_referrers` (lib.rs lines 725-740). -/
def pull_referrers
    (inner : Reference → Option String → Except String OciImageIndex)
    (image : String) (artifact_type : Option String) :
    Except String ImageIndex × Nat :=
  match Reference.fromStr image with
  | .error e => (.error ("Invalid image reference: " ++ e), 0)
  | .ok reference =>
    match inner reference artifact_type with
    | .error e => (.error ("Pull referrers failed: " ++ e), 1)
    | .ok referrers => (.ok (ImageIndex.from_native referrers), 1)

/-- Embedding of `OciClient::push_manifest_list` (lib.rs lines 748-763). -/
def push_manifest_list
    (inner : Reference → NativeRegistryAuth → OciImageIndex → Except String String)
    (reference : String) (auth : RegistryAuth) (manifest : ImageIndex) :
    Except String String × Nat :=
  match Reference.fromStr reference with
  | .error e => (.error ("Invalid reference: " ++ e), 0)
  | .ok ref_parsed =>
    match auth.to_native with
    | .error e => (.error e, 0)
    | .ok native_auth =>
      let native_manifest := OciImageIndex.from_binding manifest
      match inner ref_parsed native_auth native_manifest with
      | .error e => (.error ("Push manifest list failed: " ++ e), 1)
      | .ok url => (.ok url, 1)

/-- Embedding of `OciClient::pull_image_manifest` (lib.rs lines 774-793). -/
def pull_image_manifest
    (inner : Reference → NativeRegistryAuth → Except String (OciImageManifest × String))
    (image : String) (auth : RegistryAuth) :
    Except String PullImageManifestResult × Nat :=
  match Reference.fromStr image with
  | .error e => (.error ("Invalid image reference: " ++ e), 0)
  | .ok reference =>
    match auth.to_native with
    | .error e => (.error e, 0)
    | .ok native_auth =>
      match inner reference native_auth with
      | .error e => (.error ("Pull image manifest failed: " ++ e), 1)
      | .ok (manifest, digest) =>
        (.ok { manifest := ImageManifest.from_native manifest, digest := digest }, 1)

/-- Embedding of `OciClient::pull_manifest` (lib.rs lines 811-826). -/
def pull_manifest
    (inner : Reference → NativeRegistryAuth → Except String (OciManifest × String))
    (image : String) (auth : RegistryAuth) :
    Except String PullManifestResult × Nat :=
  match Reference.fromStr image with
  | .error e => (.error ("Invalid image reference: " ++ e), 0)
  | .ok reference =>
    match auth.to_native with
    | .error e => (.error e, 0)
    | .ok native_auth =>
      match inner reference native_auth with
      | .error e => (.error ("Pull manifest failed: " ++ e), 1)
      | .ok (manifest, digest) =>
        (.ok { manifest := Manifest.from_native manifest, digest := digest }, 1)

/-- Embedding of `OciClient::pull_manifest_raw` (lib.rs lines 830-848).  The
native engine returns the pair `(bytes, digest)`; the binding returns only the
bytes, binding the digest to the discarded `_digest`. -/
def pull_manifest_raw
    (inner : Reference → NativeRegistryAuth → List String → Except String (List Nat × String))
    (image : String) (auth : RegistryAuth) (accepted_media_types : List String) :
    Except String (List Nat) × Nat :=
  match Reference.fromStr image with
  | .error e => (.error ("Invalid image reference: " ++ e), 0)
  | .ok reference =>
    match auth.to_native with
    | .error e => (.error e, 0)
    | .ok native_auth =>
      match inner reference native_auth accepted_media_types with
      | .error e => (.error ("Pull manifest raw failed: " ++ e), 1)
      | .ok (bytes, _digest) => (.ok bytes, 1)

/-- Embedding of `OciClient::push_manifest` (lib.rs lines 853-865). -/
def push_manifest
    (inner : Reference → OciManifest → Except String String)
    (image : String) (manifest : Manifest) :
    Except String String × Nat :=
  match Reference.fromStr image with
  | .error e => (.error ("Invalid image reference: " ++ e), 0)
  | .ok reference =>
    match OciManifest.try_from_binding manifest with
    | .error e => (.error e, 0)
    | .ok native_manifest =>
      match inner reference native_manifest with
      | .error e => (.error ("Push manifest failed: " ++ e), 1)
      | .ok url => (.ok url, 1)

/-- Embedding of `OciClient::push_blob` (lib.rs lines 870-878). -/
def push_blob
    (inner : Reference → List Nat → String → Except String String)
    (image : String) (data : List Nat) (digest : String) :
    Except String String × Nat :=
  match Reference.fromStr image with
  | .error e => (.error ("Invalid image reference: " ++ e), 0)
  | .ok reference =>
    match inner reference data digest with
    | .error e => (.error ("Push blob failed: " ++ e), 1)
    | .ok d => (.ok d, 1)

/-- Embedding of `OciClient::pull_blob` (lib.rs lines 883-894): the native call
fills the byte sink, which the binding then returns. -/
def pull_blob
    (inner : Reference → String → Except String (List Nat))
    (image : String) (digest : String) :
    Except String (List Nat) × Nat :=
  match Reference.fromStr image with
  | .error e => (.error ("Invalid image reference: " ++ e), 0)
  | .ok reference =>
    match inner reference digest with
    | .error e => (.error ("Pull blob failed: " ++ e), 1)
    | .ok data => (.ok data, 1)

/-- Embedding of `OciClient::blob_exists` (lib.rs lines 898-906). -/
def blob_exists
    (inner : Reference → String → Except String Bool)
    (image : String) (digest : String) :
    Except String Bool × Nat :=
  match Reference.fromStr image with
  | .error e => (.error ("Invalid image reference: " ++ e), 0)
  | .ok reference =>
    match inner reference digest with
    | .error e => (.error ("Blob exists check failed: " ++ e), 1)
    | .ok b => (.ok b, 1)

/-- Embedding of `OciClient::mount_blob` (lib.rs lines 910-925). -/
def mount_blob
    (inner : Reference → Reference → String → Except String Unit)
    (target : String) (source : String) (digest : String) :
    Except String Unit × Nat :=
  match Reference.fromStr target with
  | .error e => (.error ("Invalid target reference: " ++ e), 0)
  | .ok target_ref =>
    match Reference.fromStr source with
    | .error e => (.error ("Invalid source reference: " ++ e), 0)
    | .ok source_ref =>
      match inner target_ref source_ref digest with
      | .error e => (.error ("Mount blob failed: " ++ e), 1)
      | .ok u => (.ok u, 1)

/-- Embedding of `OciClient::list_tags` (lib.rs lines 929-947). -/
def list_tags
    (inner : Reference → NativeRegistryAuth → Option Nat → Option String →
      Except String NativeTagResponse)
    (image : String) (auth : RegistryAuth) (n : Option Nat) (last : Option String) :
    Except String (List String) × Nat :=
  match Reference.fromStr image with
  | .error e => (.error ("Invalid image reference: " ++ e), 0)
  | .ok reference =>
    match auth.to_native with
    | .error e => (.error e, 0)
    | .ok native_auth =>
      match inner reference native_auth n last with
      | .error e => (.error ("List tags failed: " ++ e), 1)
      | .ok response => (.ok response.tags, 1)

/-- Embedding of `OciClient::fetch_manifest_digest` (lib.rs lines 951-960). -/
def fetch_manifest_digest
    (inner : Reference → NativeRegistryAuth → Except String String)
    (image : String) (auth : RegistryAuth) :
    Except String String × Nat :=
  match Reference.fromStr image with
  | .error e => (.error ("Invalid image reference: " ++ e), 0)
  | .ok reference =>
    match auth.to_native with
    | .error e => (.error e, 0)
    | .ok native_auth =>
      match inner reference native_auth with
      | .error e => (.error ("Fetch manifest digest failed: " ++ e), 1)
      | .ok digest => (.ok digest, 1)

end OciClient

/-! ## Concrete instances used to exercise the theorems -/

/-- An inner-client stub for `pull` that would fail if ever consulted. -/
def stubPullInner : Reference → NativeRegistryAuth → List String →
    Except String NativeImageData :=
  fun _ _ _ => .error "network unreachable"

/-- An inner-client stub for `mount_blob` that would fail if ever consulted. -/
def stubMountInner : Reference → Reference → String → Except String Unit :=
  fun _ _ _ => .error "network unreachable"

/-- An inner-client stub for `push_blob` that would fail if ever consulted. -/
def stubPushBlobInner : Reference → List Nat → String → Except String String :=
  fun _ _ _ => .error "network unreachable"

/-- A successful raw-manifest engine call: bytes `[1, 2, 3]`, digest `sha256:1111`. -/
def rawInnerDigestA : Reference → NativeRegistryAuth → List String →
    Except String (List Nat × String) :=
  fun _ _ _ => .ok ([1, 2, 3], "sha256:1111")

/-- The same engine bytes as `rawInnerDigestA` with a different digest `sha256:2222`. -/
def rawInnerDigestB : Reference → NativeRegistryAuth → List String →
    Except String (List Nat × String) :=
  fun _ _ _ => .ok ([1, 2, 3], "sha256:2222")

/-- A `ClientConfig` with every optional field left unset. -/
def cfgAllNone : ClientConfig :=
  { protocol := none, https_except_registries := none,
    accept_invalid_certificates := none, use_monolithic_push := none,
    extra_root_certificates := none, max_concurrent_upload := none,
    max_concurrent_download := none, default_token_expiration_secs := none,
    read_timeout_ms := none, connect_timeout_ms := none,
    https_proxy := none, http_proxy := none, no_proxy := none }

/-- A `ClientConfig` selecting `HttpsExcept` without an exception list. -/
def cfgHttpsExceptNoList : ClientConfig :=
  { cfgAllNone with protocol := some .HttpsExcept }

/-- The parse error produced for an empty reference string. -/
def emptyRefError : String := "invalid repository: empty segment or disallowed character"

/-! ## Theorems -/

/-- Map-then-map with a pointwise inverse is the identity. -/
theorem list_map_roundtrip {α β : Type} (f : α → β) (g : β → α)
    (h : ∀ x, g (f x) = x) : ∀ l : List α, (l.map f).map g = l
  | [] => rfl
  | x :: xs => by simp only [List.map_cons, h x, list_map_roundtrip f g h xs]

/-- Descriptor conversions are mutually inverse (native → binding → native). -/
theorem descriptor_roundtrip (d : OciDescriptor) :
    OciDescriptor.from_binding (Descriptor.from_native d) = d := rfl

/-- Platform conversions are mutually inverse (native → binding → native). -/
theorem platform_roundtrip (p : Platform) :
    Platform.from_binding (PlatformSpec.from_native p) = p := rfl

/-- Index-entry conversions are mutually inverse (native → binding → native). -/
theorem imageIndexEntry_roundtrip (e : ImageIndexEntry) :
    ImageIndexEntry.from_binding (ManifestEntry.from_native e) = e := by
  rcases e with ⟨mt, dg, sz, pl, an⟩
  cases pl <;> rfl

/-- Image-index conversions are mutually inverse (native → binding → native). -/
theorem ociImageIndex_roundtrip (idx : OciImageIndex) :
    OciImageIndex.from_binding (ImageIndex.from_native idx) = idx := by
  rcases idx with ⟨sv, mt, ms, art, an⟩
  simp only [ImageIndex.from_native, OciImageIndex.from_binding,
    list_map_roundtrip ManifestEntry.from_native ImageIndexEntry.from_binding
      imageIndexEntry_roundtrip ms]

/-- Image-manifest conversions are mutually inverse (native → binding → native). -/
theorem ociImageManifest_roundtrip (m : OciImageManifest) :
    OciImageManifest.from_binding (ImageManifest.from_native m) = m := by
  rcases m with ⟨sv, mt, cfg, layers, subj, art, an⟩
  cases subj <;>
    simp only [ImageManifest.from_native, OciImageManifest.from_binding,
      descriptor_roundtrip, Option.map_none', Option.map_some',
      list_map_roundtrip Descriptor.from_native OciDescriptor.from_binding
        descriptor_roundtrip layers]

/-- C3: `RegistryAuth::to_native` succeeds exactly when the fields required by
the active `auth_type` variant are present (username and password for Basic,
token for Bearer, nothing for Anonymous); on an Anonymous auth it succeeds
and yields `Anonymous` for arbitrary `username`, `password`, and `token`, so
inactive-variant fields are never inspected. -/
theorem to_native_ok_iff_required_fields_present :
    (∀ a : RegistryAuth, exceptIsOk a.to_native = a.requiredFieldsPresent) ∧
    (∀ u p t : Option String,
      RegistryAuth.to_native
        { auth_type := .Anonymous, username := u, password := p, token := t } =
        .ok .Anonymous) := by
  constructor
  · intro a
    rcases a with ⟨ty, u, p, t⟩
    cases ty <;> cases u <;> cases p <;> cases t <;> rfl
  · intro u p t
    rfl

/-- C9: the helper constructors always produce auth values whose native
conversion succeeds with the intended variant: `anonymous_auth` ↦ `Anonymous`,
`basic_auth u p` ↦ `Basic u p`, `bearer_auth t` ↦ `Bearer t`. -/
theorem auth_helper_constructors_convert :
    RegistryAuth.to_native anonymous_auth = .ok .Anonymous ∧
    (∀ u p : String, (basic_auth u p).to_native = .ok (.Basic u p)) ∧
    (∀ t : String, (bearer_auth t).to_native = .ok (.Bearer t)) :=
  ⟨rfl, fun _ _ => rfl, fun _ => rfl⟩

/-- C4: every `Manifest` built from a native `OciManifest` has exactly the
payload field matching its `manifest_type` populated and the other absent; and
converting a `Manifest` back to a native `OciManifest` succeeds exactly when
the field matching `manifest_type` is present. -/
theorem manifest_tagged_sum_invariant :
    (∀ m : OciManifest,
      match (Manifest.from_native m).manifest_type with
      | .Image =>
        (Manifest.from_native m).image.isSome = true ∧
          (Manifest.from_native m).image_index = none
      | .ImageIndex =>
        (Manifest.from_native m).image = none ∧
          (Manifest.from_native m).image_index.isSome = true) ∧
    (∀ w : Manifest,
      exceptIsOk (OciManifest.try_from_binding w) =
        match w.manifest_type with
        | .Image => w.image.isSome
        | .ImageIndex => w.image_index.isSome) := by
  constructor
  · intro m
    cases m <;> exact ⟨rfl, rfl⟩
  · intro w
    rcases w with ⟨ty, img, idx⟩
    cases ty <;> first
      | (cases img <;> rfl)
      | (cases idx <;> rfl)

/-- C6: each exported media type constant equals, character for character, the
corresponding OCI/Docker media type string, and the layer constants cover the
plain, gzip, and nondistributable tar variants. -/
theorem media_type_constants_exact :
    OCI_IMAGE_MEDIA_TYPE = "application/vnd.oci.image.manifest.v1+json" ∧
    OCI_IMAGE_INDEX_MEDIA_TYPE = "application/vnd.oci.image.index.v1+json" ∧
    IMAGE_MANIFEST_MEDIA_TYPE = "application/vnd.docker.distribution.manifest.v2+json" ∧
    IMAGE_MANIFEST_LIST_MEDIA_TYPE =
      "application/vnd.docker.distribution.manifest.list.v2+json" ∧
    IMAGE_CONFIG_MEDIA_TYPE = "application/vnd.oci.image.config.v1+json" ∧
    IMAGE_LAYER_MEDIA_TYPE = "application/vnd.oci.image.layer.v1.tar" ∧
    IMAGE_LAYER_GZIP_MEDIA_TYPE = "application/vnd.oci.image.layer.v1.tar+gzip" ∧
    IMAGE_LAYER_NONDISTRIBUTABLE_MEDIA_TYPE =
      "application/vnd.oci.image.layer.nondistributable.v1.tar" ∧
    IMAGE_LAYER_NONDISTRIBUTABLE_GZIP_MEDIA_TYPE =
      "application/vnd.oci.image.layer.nondistributable.v1.tar+gzip" :=
  ⟨rfl, rfl, rfl, rfl, rfl, rfl, rfl, rfl, rfl⟩

/-- C7: the exported annotation-key constants are exactly
`org.opencontainers.image.` followed by the corresponding key name, for
exactly the fourteen keys listed in the spec, in order. -/
theorem annotation_key_constants_exact :
    exportedAnnotationKeys =
      (["created", "authors", "url", "documentation", "source", "version",
        "revision", "vendor", "licenses", "ref.name", "title", "description",
        "base.digest", "base.name"]).map
        (fun k => "org.opencontainers.image." ++ k) := by
  rfl

/-- C8: the manifest-type conversions between native and binding
representations round-trip exactly: converting an `OciDescriptor`,
`OciImageManifest`, `OciImageIndex`, or `OciManifest` to the binding type and
back yields the original value, field for field, preserving the order and
count of layer descriptors and index manifest entries. -/
theorem manifest_conversions_roundtrip :
    (∀ d : OciDescriptor, OciDescriptor.from_binding (Descriptor.from_native d) = d) ∧
    (∀ m : OciImageManifest,
      OciImageManifest.from_binding (ImageManifest.from_native m) = m) ∧
    (∀ idx : OciImageIndex, OciImageIndex.from_binding (ImageIndex.from_native idx) = idx) ∧
    (∀ m : OciManifest, OciManifest.try_from_binding (Manifest.from_native m) = .ok m) := by
  refine ⟨descriptor_roundtrip, ociImageManifest_roundtrip, ociImageIndex_roundtrip, ?_⟩
  intro m
  cases m with
  | Image img =>
    simp only [Manifest.from_native, OciManifest.try_from_binding,
      ociImageManifest_roundtrip img]
  | ImageIndex idx =>
    simp only [Manifest.from_native, OciManifest.try_from_binding,
      ociImageIndex_roundtrip idx]

/-- C5: `ClientConfig::to_native` starts from the native default configuration
and overrides only the explicitly set fields: every native field whose
controlling option is `None` keeps its default value, and the defaults are the
documented ones (Https, certificates validated, chunked push, no extra trust
roots, 16/16 concurrency, 60 s token expiry, no timeouts, no proxies). -/
theorem clientConfig_to_native_frame (c : ClientConfig) :
    (c.protocol = none → (c.to_native).protocol = defaultNativeClientConfig.protocol) ∧
    (c.accept_invalid_certificates = none →
      (c.to_native).accept_invalid_certificates =
        defaultNativeClientConfig.accept_invalid_certificates) ∧
    (c.use_monolithic_push = none →
      (c.to_native).use_monolithic_push = defaultNativeClientConfig.use_monolithic_push) ∧
    (c.extra_root_certificates = none →
      (c.to_native).extra_root_certificates =
        defaultNativeClientConfig.extra_root_certificates) ∧
    (c.max_concurrent_upload = none →
      (c.to_native).max_concurrent_upload =
        defaultNativeClientConfig.max_concurrent_upload) ∧
    (c.max_concurrent_download = none →
      (c.to_native).max_concurrent_download =
        defaultNativeClientConfig.max_concurrent_download) ∧
    (c.default_token_expiration_secs = none →
      (c.to_native).default_token_expiration_secs =
        defaultNativeClientConfig.default_token_expiration_secs) ∧
    (c.read_timeout_ms = none →
      (c.to_native).read_timeout = defaultNativeClientConfig.read_timeout) ∧
    (c.connect_timeout_ms = none →
      (c.to_native).connect_timeout = defaultNativeClientConfig.connect_timeout) ∧
    (c.https_proxy = none → (c.to_native).https_proxy = defaultNativeClientConfig.https_proxy) ∧
    (c.http_proxy = none → (c.to_native).http_proxy = defaultNativeClientConfig.http_proxy) ∧
    (c.no_proxy = none → (c.to_native).no_proxy = defaultNativeClientConfig.no_proxy) ∧
    defaultNativeClientConfig.protocol = .Https ∧
    defaultNativeClientConfig.accept_invalid_certificates = false ∧
    defaultNativeClientConfig.use_monolithic_push = false ∧
    defaultNativeClientConfig.extra_root_certificates = [] ∧
    defaultNativeClientConfig.max_concurrent_upload = 16 ∧
    defaultNativeClientConfig.max_concurrent_download = 16 ∧
    defaultNativeClientConfig.default_token_expiration_secs = 60 ∧
    defaultNativeClientConfig.read_timeout = none ∧
    defaultNativeClientConfig.connect_timeout = none ∧
    defaultNativeClientConfig.https_proxy = none ∧
    defaultNativeClientConfig.http_proxy = none ∧
    defaultNativeClientConfig.no_proxy = none := by
  refine ⟨?_, ?_, ?_, ?_, ?_, ?_, ?_, ?_, ?_, ?_, ?_, ?_,
    rfl, rfl, rfl, rfl, rfl, rfl, rfl, rfl, rfl, rfl, rfl, rfl⟩ <;>
    intro h <;> simp only [ClientConfig.to_native, h]

/-- Witness for C5: converting the all-unset configuration keeps every field
at its documented default. -/
theorem clientConfig_to_native_frame_witness :
    (cfgAllNone.to_native).protocol = NativeClientProtocol.Https ∧
    (cfgAllNone.to_native).accept_invalid_certificates = false ∧
    (cfgAllNone.to_native).use_monolithic_push = false ∧
    (cfgAllNone.to_native).extra_root_certificates = [] ∧
    (cfgAllNone.to_native).max_concurrent_upload = 16 ∧
    (cfgAllNone.to_native).max_concurrent_download = 16 ∧
    (cfgAllNone.to_native).default_token_expiration_secs = 60 ∧
    (cfgAllNone.to_native).read_timeout = none ∧
    (cfgAllNone.to_native).connect_timeout = none ∧
    (cfgAllNone.to_native).https_proxy = none ∧
    (cfgAllNone.to_native).http_proxy = none ∧
    (cfgAllNone.to_native).no_proxy = none := by
  have h := clientConfig_to_native_frame cfgAllNone
  exact ⟨h.1 rfl, h.2.1 rfl, h.2.2.1 rfl, h.2.2.2.1 rfl, h.2.2.2.2.1 rfl,
    h.2.2.2.2.2.1 rfl, h.2.2.2.2.2.2.1 rfl, h.2.2.2.2.2.2.2.1 rfl,
    h.2.2.2.2.2.2.2.2.1 rfl, h.2.2.2.2.2.2.2.2.2.1 rfl,
    h.2.2.2.2.2.2.2.2.2.2.1 rfl, h.2.2.2.2.2.2.2.2.2.2.2.1 rfl⟩

/-- C10: selecting `HttpsExcept` while leaving `https_except_registries`
unset is not an error: the native protocol becomes `HttpsExcept []`, and under
the spec's protocol policy an empty exception list selects the same scheme as
`Https` for every registry. -/
theorem https_except_without_list (c : ClientConfig)
    (h1 : c.protocol = some .HttpsExcept)
    (h2 : c.https_except_registries = none) :
    (c.to_native).protocol = .HttpsExcept [] ∧
    (∀ registry : String,
      NativeClientProtocol.schemeFor (.HttpsExcept []) registry =
        NativeClientProtocol.schemeFor .Https registry) := by
  constructor
  · simp only [ClientConfig.to_native, h1, h2, Option.getD_none]
  · intro registry
    simp [NativeClientProtocol.schemeFor]

/-- Witness for C10: the concrete `HttpsExcept`-without-list configuration. -/
theorem https_except_without_list_witness :
    (cfgHttpsExceptNoList.to_native).protocol = .HttpsExcept [] ∧
    NativeClientProtocol.schemeFor (.HttpsExcept []) "example.com" =
      NativeClientProtocol.schemeFor .Https "example.com" := by
  have h := https_except_without_list cfgHttpsExceptNoList rfl rfl
  exact ⟨h.1, h.2 "example.com"⟩

/-- C2 counterexample: on a successful `pull_manifest_raw` call the public
result is only the raw bytes — it is literally identical for two engine
responses that carry the same bytes but different digests, so it cannot
contain the manifest's digest. -/
theorem pull_manifest_raw_digest_discarded :
    (OciClient.pull_manifest_raw rawInnerDigestA "library/ubuntu" anonymous_auth []).1 =
      .ok [1, 2, 3] ∧
    OciClient.pull_manifest_raw rawInnerDigestA "library/ubuntu" anonymous_auth [] =
      OciClient.pull_manifest_raw rawInnerDigestB "library/ubuntu" anonymous_auth [] :=
  ⟨rfl, rfl⟩

/-- C2 amended: a successful `pull_manifest_raw` call returns exactly the raw
manifest bytes of the engine's `(bytes, digest)` response; the digest is
discarded by the binding. -/
theorem pull_manifest_raw_returns_bytes_only
    (inner : Reference → NativeRegistryAuth → List String →
      Except String (List Nat × String))
    (image : String) (reference : Reference) (auth : RegistryAuth)
    (native_auth : NativeRegistryAuth) (accepted_media_types : List String)
    (bytes : List Nat) (digest : String)
    (h1 : Reference.fromStr image = .ok reference)
    (h2 : auth.to_native = .ok native_auth)
    (h3 : inner reference native_auth accepted_media_types = .ok (bytes, digest)) :
    OciClient.pull_manifest_raw inner image auth accepted_media_types = (.ok bytes, 1) := by
  simp only [OciClient.pull_manifest_raw, h1, h2, h3]

/-- Witness for the amended C2: concrete successful call. -/
theorem pull_manifest_raw_returns_bytes_only_witness :
    OciClient.pull_manifest_raw rawInnerDigestA "library/ubuntu" anonymous_auth [] =
      (.ok [1, 2, 3], 1) :=
  pull_manifest_raw_returns_bytes_only rawInnerDigestA "library/ubuntu"
    { registry := "docker.io", repository := "library/ubuntu",
      tag := some "latest", digest := none }
    anonymous_auth .Anonymous [] [1, 2, 3] "sha256:1111" rfl rfl rfl

/-- C1: whenever the reference string fails to parse, every public client
operation that takes an image reference returns an invalid-reference error
carrying the parse failure's cause and performs zero inner-client (network)
calls; for `mount_blob` this holds for the target reference and — given any
well-formed target — for the source reference. -/
theorem invalid_reference_fails_before_network (s e : String)
    (h : Reference.fromStr s = .error e) :
    (∀ inner auth accepted_media_types,
      OciClient.pull inner s auth accepted_media_types =
        (.error ("Invalid image reference: " ++ e), 0)) ∧
    (∀ inner layers config auth manifest,
      OciClient.push inner s layers config auth manifest =
        (.error ("Invalid image reference: " ++ e), 0)) ∧
    (∀ inner artifact_type,
      OciClient.pull_referrers inner s artifact_type =
        (.error ("Invalid image reference: " ++ e), 0)) ∧
    (∀ inner auth manifest,
      OciClient.push_manifest_list inner s auth manifest =
        (.error ("Invalid reference: " ++ e), 0)) ∧
    (∀ inner auth,
      OciClient.pull_image_manifest inner s auth =
        (.error ("Invalid image reference: " ++ e), 0)) ∧
    (∀ inner auth,
      OciClient.pull_manifest inner s auth =
        (.error ("Invalid image reference: " ++ e), 0)) ∧
    (∀ inner auth accepted_media_types,
      OciClient.pull_manifest_raw inner s auth accepted_media_types =
        (.error ("Invalid image reference: " ++ e), 0)) ∧
    (∀ inner manifest,
      OciClient.push_manifest inner s manifest =
        (.error ("Invalid image reference: " ++ e), 0)) ∧
    (∀ inner data digest,
      OciClient.push_blob inner s data digest =
        (.error ("Invalid image reference: " ++ e), 0)) ∧
    (∀ inner digest,
      OciClient.pull_blob inner s digest =
        (.error ("Invalid image reference: " ++ e), 0)) ∧
    (∀ inner digest,
      OciClient.blob_exists inner s digest =
        (.error ("Invalid image reference: " ++ e), 0)) ∧
    (∀ inner source digest,
      OciClient.mount_blob inner s source digest =
        (.error ("Invalid target reference: " ++ e), 0)) ∧
    (∀ inner target target_ref, Reference.fromStr target = .ok target_ref →
      ∀ digest, OciClient.mount_blob inner target s digest =
        (.error ("Invalid source reference: " ++ e), 0)) ∧
    (∀ inner auth n last,
      OciClient.list_tags inner s auth n last =
        (.error ("Invalid image reference: " ++ e), 0)) ∧
    (∀ inner auth,
      OciClient.fetch_manifest_digest inner s auth =
        (.error ("Invalid image reference: " ++ e), 0)) := by
  refine ⟨?_, ?_, ?_, ?_, ?_, ?_, ?_, ?_, ?_, ?_, ?_, ?_, ?_, ?_, ?_⟩ <;> intros
  · simp only [OciClient.pull, h]
  · simp only [OciClient.push, h]
  · simp only [OciClient.pull_referrers, h]
  · simp only [OciClient.push_manifest_list, h]
  · simp only [OciClient.pull_image_manifest, h]
  · simp only [OciClient.pull_manifest, h]
  · simp only [OciClient.pull_manifest_raw, h]
  · simp only [OciClient.push_manifest, h]
  · simp only [OciClient.push_blob, h]
  · simp only [OciClient.pull_blob, h]
  · simp only [OciClient.blob_exists, h]
  · simp only [OciClient.mount_blob, h]
  · next inner target target_ref ht digest =>
      simp only [OciClient.mount_blob, ht, h]
  · simp only [OciClient.list_tags, h]
  · simp only [OciClient.fetch_manifest_digest, h]

/-- Witness for C1: the empty reference string fails to parse; `pull`,
`push_blob` and both `mount_blob` positions report the parse cause with zero
network calls. -/
theorem invalid_reference_fails_before_network_witness :
    OciClient.pull stubPullInner "" anonymous_auth [] =
      (.error ("Invalid image reference: " ++ emptyRefError), 0) ∧
    OciClient.push_blob stubPushBlobInner "" [0] "sha256:ab" =
      (.error ("Invalid image reference: " ++ emptyRefError), 0) ∧
    OciClient.mount_blob stubMountInner "" "library/ubuntu" "sha256:ab" =
      (.error ("Invalid target reference: " ++ emptyRefError), 0) ∧
    OciClient.mount_blob stubMountInner "library/ubuntu" "" "sha256:ab" =
      (.error ("Invalid source reference: " ++ emptyRefError), 0) := by
  have h := invalid_reference_fails_before_network "" emptyRefError rfl
  exact ⟨h.1 stubPullInner anonymous_auth [],
    h.2.2.2.2.2.2.2.2.1 stubPushBlobInner [0] "sha256:ab",
    h.2.2.2.2.2.2.2.2.2.2.2.1 stubMountInner "library/ubuntu" "sha256:ab",
    h.2.2.2.2.2.2.2.2.2.2.2.2.1 stubMountInner "library/ubuntu"
      { registry := "docker.io", repository := "library/ubuntu",
        tag := some "latest", digest := none } rfl "sha256:ab"⟩

end OciBind
